import Mathlib

/-! Shallow embedding of `src/app.py` (a real-time anomaly-detection pipeline):
the stream validation function `validate_data`, the rolling z-score detector
`RollingZScoreAnomalyDetector.update_and_detect`, and the consumer loop of
`update_graph` that drains the queue and assigns sequence indices.

Python floating-point values are idealised as exact rationals for the finite
case, with explicit constructors for the non-finite values `nan`, `inf`,
`-inf` (which in Python are instances of `float` and hence pass the
`isinstance` check of `validate_data`).  The z-score comparison computed with
`np.mean` / `np.std` is embedded at the `Prop` level over `ℝ`, since
`np.std` takes a square root.
-/

namespace AnomalyDetection

/-- A Python floating-point value: a finite real (idealised as a rational),
or one of the distinguished non-finite values `nan`, `inf`, `-inf`. -/
inductive FloatVal where
  | finite : ℚ → FloatVal
  | nan : FloatVal
  | inf : FloatVal
  | neginf : FloatVal
deriving DecidableEq, Repr

/-- A Python runtime value as it can reach `validate_data` /
`update_and_detect`: an `int`, a `float`, or a non-numeric value
(represented here by strings and `None`). -/
inductive PyValue where
  | int : ℤ → PyValue
  | float : FloatVal → PyValue
  | str : String → PyValue
  | none : PyValue
deriving DecidableEq, Repr

/-- The error raised on invalid data: `class DataStreamException(Exception)`. -/
structure DataStreamException where
  msg : String
deriving DecidableEq, Repr

/-- The test `isinstance(value, (int, float))` performed by `validate_data`.
Note that Python `float` instances include `nan` and the infinities. -/
def PyValue.isNumericInstance : PyValue → Bool
  | .int _ => true
  | .float _ => true
  | _ => false

/-- Embeds `validate_data(value)`: returns `True` when `value` is an instance of
`int` or `float`, otherwise raises `DataStreamException` (embedded as
`Except`). The source checks only the type, not finiteness. -/
def validate_data (value : PyValue) : Except DataStreamException Bool :=
  if value.isNumericInstance then .ok true
  else .error ⟨"Invalid data: value is not a numeric type."⟩

/-- The numeric content of a value of numeric type (`int`s are exact). -/
def PyValue.toFloatVal : PyValue → Option FloatVal
  | .int n => some (.finite (n : ℚ))
  | .float f => some f
  | _ => Option.none

/-- Embeds `deque(maxlen=m).append(v)`: append on the right, dropping from the left
whatever exceeds the capacity `m`. -/
def dequeAppend {α : Type} (maxlen : ℕ) (w : List α) (v : α) : List α :=
  let w' := w ++ [v]
  if maxlen < w'.length then w'.drop (w'.length - maxlen) else w'

/-- Embeds `np.mean` over a list of finite values, in exact arithmetic. -/
def qMean (l : List ℚ) : ℚ := l.sum / l.length

/-- The population variance (`np.std` squared, `ddof=0`) over a list of
finite values, in exact arithmetic. -/
def qVar (l : List ℚ) : ℚ := (l.map (fun x => (x - qMean l) ^ 2)).sum / l.length

/-- Extracts the rational contents of a window whose entries are all finite;
`none` when the window holds a `nan` or an infinity. -/
def finiteVals : List FloatVal → Option (List ℚ)
  | [] => some []
  | .finite q :: rest => (finiteVals rest).map (fun qs => q :: qs)
  | _ :: _ => Option.none

/-- The z-score test of `update_and_detect` steps 4–7 on the post-append
window `w` and candidate `v`:
`mean = np.mean(w)`, `std_dev = np.std(w)`, `std_dev = 1e-6` if zero, and
the result is `abs((v - mean) / std_dev) > threshold`.
When `w` contains a non-finite entry, `np.std(w)` is `nan` (for an infinity,
`np.mean` is infinite and the squared deviation of that entry is
`inf - inf = nan`), the comparison with `nan` is IEEE-false, and the result
is `False`; similarly when `v` itself is non-finite (it is in `w`). -/
def zDetect (threshold : ℚ) (w : List FloatVal) (v : FloatVal) : Prop :=
  match finiteVals w, v with
  | some qs, .finite q =>
      |((q : ℝ) - (qMean qs : ℝ)) /
        (if qVar qs = 0 then (1e-6 : ℝ) else Real.sqrt (qVar qs))| >
        (threshold : ℝ)
  | _, _ => False

/-- The state of `RollingZScoreAnomalyDetector`: `self.window` is a
`deque(maxlen=window_size)` of accepted values and `self.threshold` the
z-score threshold. -/
structure RollingZScoreAnomalyDetector where
  window_size : ℕ
  threshold : ℚ
  window : List FloatVal
deriving DecidableEq, Repr

namespace RollingZScoreAnomalyDetector

/-- Embeds the constructor `RollingZScoreAnomalyDetector(window_size, threshold)`: fresh detector
with an empty window. -/
def mk' (window_size : ℕ) (threshold : ℚ) : RollingZScoreAnomalyDetector :=
  ⟨window_size, threshold, []⟩

/-- Embeds `update_and_detect(self, value)`: validate (a `DataStreamException` is
caught and turned into `False` with the window untouched), append to the
window, return `False` when the window holds fewer than 2 entries, otherwise
apply the z-score test.  The returned pair is (result, updated state); the
result is a `Prop` because the comparison is over `ℝ`. -/
def update_and_detect (d : RollingZScoreAnomalyDetector) (value : PyValue) :
    Prop × RollingZScoreAnomalyDetector :=
  match value.toFloatVal with
  | Option.none => (False, d)
  | some f =>
      let w' := dequeAppend d.window_size d.window f
      (if w'.length < 2 then False else zDetect d.threshold w' f,
       { d with window := w' })

/-- Folding `update_and_detect` over a list of incoming values: the final
detector state. -/
def run (d : RollingZScoreAnomalyDetector) (vs : List PyValue) :
    RollingZScoreAnomalyDetector :=
  vs.foldl (fun s v => (s.update_and_detect v).2) d

/-- Folding `update_and_detect` over a list of incoming values: the sequence
of anomaly flags, one per input. -/
def runFlags (d : RollingZScoreAnomalyDetector) (vs : List PyValue) :
    List Prop :=
  match vs with
  | [] => []
  | v :: rest => (d.update_and_detect v).1 :: runFlags (d.update_and_detect v).2 rest

end RollingZScoreAnomalyDetector

/-! The consumer side of `update_graph`: per consumed sample the code runs
`idx = len(data_x) + 1; data_x.append(idx); data_y.append(value)` where
`data_x = deque(maxlen=200)`, and then feeds the value to the detector.
Only `data_x` matters for the sequence index.
-/

/-- The sequence index `update_graph` assigns to the sample it is about to
consume: `idx = len(data_x) + 1`. -/
def consumeIdx (data_x : List ℕ) : ℕ := data_x.length + 1

/-- The effect of consuming one sample on `data_x`:
`data_x.append(idx)` with `maxlen=200`. -/
def consumeStep (data_x : List ℕ) : List ℕ :=
  dequeAppend 200 data_x (consumeIdx data_x)

/-- The `data_x` deque after `k` samples have been consumed (starting from
the empty deque at module initialisation). -/
def consumeState : ℕ → List ℕ
  | 0 => []
  | k + 1 => consumeStep (consumeState k)

/-- The sequence index assigned to the `k`-th consumed sample (1-based). -/
def nthIdx (k : ℕ) : ℕ := consumeIdx (consumeState (k - 1))

/-- Spec-side predicate, from the amended claim: a value is accepted by
`validate_data` iff it is of numeric kind (an `int` or `float` instance),
regardless of finiteness. -/
def acceptedKind : PyValue → Prop
  | .int _ => True
  | .float _ => True
  | _ => False

/-! Helper lemmas -/

theorem dequeAppend_length {α : Type} (maxlen : ℕ) (w : List α) (v : α) :
    (dequeAppend maxlen w v).length = min (w.length + 1) maxlen := by
  rw [dequeAppend]
  split_ifs with h <;> simp [List.length_append] at h ⊢ <;> omega

theorem toFloatVal_eq_none_iff (v : PyValue) :
    v.toFloatVal = Option.none ↔ v.isNumericInstance = false := by
  cases v <;> simp [PyValue.toFloatVal, PyValue.isNumericInstance]

theorem validate_error_iff (v : PyValue) (e : DataStreamException) :
    validate_data v = .error e → v.isNumericInstance = false := by
  intro h
  unfold validate_data at h
  split_ifs at h with hb
  simpa using hb

namespace RollingZScoreAnomalyDetector

theorem update_window_size (d : RollingZScoreAnomalyDetector) (v : PyValue) :
    (d.update_and_detect v).2.window_size = d.window_size := by
  cases hv : v.toFloatVal <;> simp [update_and_detect, hv]

theorem update_threshold (d : RollingZScoreAnomalyDetector) (v : PyValue) :
    (d.update_and_detect v).2.threshold = d.threshold := by
  cases hv : v.toFloatVal <;> simp [update_and_detect, hv]

theorem update_window_valid (d : RollingZScoreAnomalyDetector) (v : PyValue)
    (f : FloatVal) (hv : v.toFloatVal = some f) :
    (d.update_and_detect v).2.window = dequeAppend d.window_size d.window f := by
  simp [update_and_detect, hv]

theorem update_window_invalid (d : RollingZScoreAnomalyDetector) (v : PyValue)
    (hv : v.toFloatVal = Option.none) :
    d.update_and_detect v = (False, d) := by
  simp [update_and_detect, hv]

end RollingZScoreAnomalyDetector

theorem dequeAppend_drop {α : Type} (m : ℕ) (fs : List α) (v : α) :
    dequeAppend m (fs.drop (fs.length - m)) v = (fs ++ [v]).drop (fs.length + 1 - m) := by
  have hwlen : (fs.drop (fs.length - m)).length = fs.length - (fs.length - m) :=
    List.length_drop _ _
  rw [dequeAppend]
  split_ifs with h
  · have hm : m ≤ fs.length := by
      simp only [List.length_append, hwlen, List.length_singleton] at h
      omega
    rcases Nat.eq_zero_or_pos m with h0 | h0
    · subst h0
      simp [List.drop_eq_nil_of_le, List.length_append]
    · have h1 : (fs.drop (fs.length - m) ++ [v]).length - m = 1 := by
        simp only [List.length_append, hwlen, List.length_singleton]
        omega
      rw [h1, List.drop_append_of_le_length (by rw [hwlen]; omega), List.drop_drop,
        List.drop_append_of_le_length (by omega)]
      have h2 : fs.length - m + 1 = fs.length + 1 - m := by omega
      rw [h2]
  · have hm : fs.length < m := by
      simp only [List.length_append, hwlen, List.length_singleton] at h
      omega
    rw [Nat.sub_eq_zero_of_le hm.le, Nat.sub_eq_zero_of_le (by omega)]
    simp

theorem foldl_dequeAppend_eq_drop {α : Type} (m : ℕ) (fs : List α) :
    fs.foldl (dequeAppend m) [] = fs.drop (fs.length - m) := by
  induction fs using List.reverseRecOn with
  | nil => simp
  | append_singleton gs v ih =>
      rw [List.foldl_append, List.foldl_cons, List.foldl_nil, ih, dequeAppend_drop]
      simp [List.length_append]

namespace RollingZScoreAnomalyDetector

theorem run_window_foldl (vs : List PyValue) :
    ∀ d : RollingZScoreAnomalyDetector,
      (d.run vs).window =
        (vs.filterMap PyValue.toFloatVal).foldl (dequeAppend d.window_size) d.window := by
  induction vs with
  | nil => intro d; rfl
  | cons v rest ih =>
      intro d
      cases hv : v.toFloatVal with
      | none =>
          rw [run, List.foldl_cons, show (d.update_and_detect v).2 = d from
            congrArg Prod.snd (update_window_invalid d v hv)]
          rw [List.filterMap_cons_none hv]
          exact ih d
      | some f =>
          rw [run, List.foldl_cons, List.filterMap_cons_some hv, List.foldl_cons]
          have := ih (d.update_and_detect v).2
          rw [run] at this
          rw [this, update_window_valid d v f hv, update_window_size d v]

theorem run_window_size (vs : List PyValue) :
    ∀ d : RollingZScoreAnomalyDetector, (d.run vs).window_size = d.window_size := by
  induction vs with
  | nil => intro d; rfl
  | cons v rest ih =>
      intro d
      rw [run, List.foldl_cons]
      have := ih (d.update_and_detect v).2
      rw [run] at this
      rw [this, update_window_size]

theorem run_threshold (vs : List PyValue) :
    ∀ d : RollingZScoreAnomalyDetector, (d.run vs).threshold = d.threshold := by
  induction vs with
  | nil => intro d; rfl
  | cons v rest ih =>
      intro d
      rw [run, List.foldl_cons]
      have := ih (d.update_and_detect v).2
      rw [run] at this
      rw [this, update_threshold]

end RollingZScoreAnomalyDetector

theorem consumeState_length (k : ℕ) : (consumeState k).length = min k 200 := by
  induction k with
  | zero => simp [consumeState]
  | succ k ih =>
      rw [consumeState, consumeStep, dequeAppend_length, ih]
      omega

theorem detector_ext (e : RollingZScoreAnomalyDetector) (ws : ℕ) (t : ℚ)
    (w : List FloatVal) (h1 : e.window_size = ws) (h2 : e.threshold = t)
    (h3 : e.window = w) : e = ⟨ws, t, w⟩ := by
  cases e; simp_all

theorem filterMap_toFloatVal_map_float (fs : List FloatVal) :
    (fs.map PyValue.float).filterMap PyValue.toFloatVal = fs := by
  induction fs with
  | nil => rfl
  | cons f rest ih =>
      rw [List.map_cons,
        List.filterMap_cons_some (show PyValue.toFloatVal (.float f) = some f from rfl),
        ih]

namespace RollingZScoreAnomalyDetector

theorem run_float_window (ws : ℕ) (t : ℚ) (fs : List FloatVal) :
    ((mk' ws t).run (fs.map PyValue.float)).window = fs.drop (fs.length - ws) := by
  rw [run_window_foldl, filterMap_toFloatVal_map_float]
  exact foldl_dequeAppend_eq_drop ws fs

theorem update_result_of_ge_two (d : RollingZScoreAnomalyDetector) (v : PyValue)
    (f : FloatVal) (hv : v.toFloatVal = some f)
    (h2 : ¬ (dequeAppend d.window_size d.window f).length < 2) :
    (d.update_and_detect v).1
      = zDetect d.threshold (dequeAppend d.window_size d.window f) f := by
  simp [update_and_detect, hv, h2]

end RollingZScoreAnomalyDetector

theorem finiteVals_replicate (n : ℕ) (q : ℚ) :
    finiteVals (List.replicate n (.finite q)) = some (List.replicate n q) := by
  induction n with
  | zero => rfl
  | succ n ih => simp [List.replicate_succ, finiteVals, ih]

theorem qMean_replicate (n : ℕ) (q : ℚ) (hn : n ≠ 0) :
    qMean (List.replicate n q) = q := by
  rw [qMean]
  simp only [List.sum_replicate, nsmul_eq_mul, List.length_replicate]
  exact mul_div_cancel_left₀ q (Nat.cast_ne_zero.mpr hn)

theorem qVar_replicate (n : ℕ) (q : ℚ) : qVar (List.replicate n q) = 0 := by
  cases n with
  | zero => simp [qVar]
  | succ n =>
      simp [qVar, qMean_replicate (n + 1) q (Nat.succ_ne_zero n),
        List.map_replicate, List.sum_replicate]

theorem zDetect_eq (t : ℚ) (w : List FloatVal) (qs : List ℚ) (q : ℚ)
    (hw : finiteVals w = some qs) :
    zDetect t w (.finite q)
      = (|((q : ℝ) - (qMean qs : ℝ)) /
          (if qVar qs = 0 then (1e-6 : ℝ) else Real.sqrt (qVar qs))| > (t : ℝ)) := by
  simp [zDetect, hw]

theorem dequeAppend_replicate_self {α : Type} (n : ℕ) (a : α) :
    dequeAppend n (List.replicate n a) a = List.replicate n a := by
  have h := dequeAppend_drop n (List.replicate n a) a
  simp only [List.length_replicate, Nat.sub_self, List.drop_zero] at h
  rw [h, ← List.replicate_succ' n a, Nat.add_sub_cancel_left, List.replicate_succ,
    List.drop_one, List.tail_cons]

theorem qMean_pair (a b : ℚ) : qMean [a, b] = (a + b) / 2 := by
  simp [qMean]

theorem qVar_pair (a b : ℚ) : qVar [a, b] = (a - b) ^ 2 / 4 := by
  simp [qVar, qMean]
  ring

theorem sqrt_qVar_pair (a b : ℚ) :
    Real.sqrt ((qVar [a, b] : ℚ) : ℝ) = |(a : ℝ) - (b : ℝ)| / 2 := by
  rw [qVar_pair]
  push_cast
  rw [show ((a : ℝ) - b) ^ 2 / 4 = (((a : ℝ) - b) / 2) ^ 2 by ring,
    Real.sqrt_sq_eq_abs, abs_div]
  norm_num

theorem update_result_mk (ws : ℕ) (t : ℚ) (w : List FloatVal) (v : PyValue)
    (f : FloatVal) (hv : v.toFloatVal = some f)
    (h2 : ¬ (dequeAppend ws w f).length < 2) :
    ((⟨ws, t, w⟩ : RollingZScoreAnomalyDetector).update_and_detect v).1
      = zDetect t (dequeAppend ws w f) f :=
  RollingZScoreAnomalyDetector.update_result_of_ge_two ⟨ws, t, w⟩ v f hv h2

theorem update_short_window_false (d : RollingZScoreAnomalyDetector) (v : PyValue)
    (h : (d.update_and_detect v).2.window.length < 2) : ¬ (d.update_and_detect v).1 := by
  cases hv : v.toFloatVal with
  | none =>
      rw [RollingZScoreAnomalyDetector.update_window_invalid d v hv]
      exact fun hfalse => hfalse
  | some f =>
      rw [RollingZScoreAnomalyDetector.update_window_valid d v f hv] at h
      simp [RollingZScoreAnomalyDetector.update_and_detect, hv, h]

theorem update_fresh_false (ws : ℕ) (t : ℚ) (v : PyValue) :
    ¬ ((RollingZScoreAnomalyDetector.mk' ws t).update_and_detect v).1 := by
  cases hv : v.toFloatVal with
  | none =>
      rw [RollingZScoreAnomalyDetector.update_window_invalid _ v hv]
      exact fun hfalse => hfalse
  | some f =>
      have h2 : (dequeAppend ws ([] : List FloatVal) f).length < 2 := by
        rw [dequeAppend_length]
        simp only [List.length_nil]
        omega
      simp [RollingZScoreAnomalyDetector.update_and_detect,
        RollingZScoreAnomalyDetector.mk', hv, h2]

theorem two_point_abs_z (a b : ℚ) (hab : a ≠ b) :
    |((b : ℝ) - (qMean [a, b] : ℝ)) / Real.sqrt (qVar [a, b])| = 1 := by
  rw [sqrt_qVar_pair, qMean_pair]
  push_cast
  have hab' : (a : ℝ) - b ≠ 0 := sub_ne_zero.mpr (by exact_mod_cast hab)
  rw [show (b : ℝ) - ((a : ℝ) + b) / 2 = ((b : ℝ) - a) / 2 by ring]
  simp only [abs_div, abs_abs, abs_two]
  rw [abs_sub_comm (b : ℝ) (a : ℝ)]
  exact div_self (div_ne_zero (abs_ne_zero.mpr hab') two_ne_zero)

theorem zDetect_pair_not (a b t : ℚ) (ht : 1 < t) :
    ¬ zDetect t [.finite a, .finite b] (.finite b) := by
  rw [zDetect_eq t [.finite a, .finite b] [a, b] b
    (show finiteVals [.finite a, .finite b] = some [a, b] from rfl)]
  by_cases hab : a = b
  · subst hab
    rw [if_pos (by rw [qVar_pair]; ring), qMean_pair]
    push_cast
    rw [show (a : ℝ) - ((a : ℝ) + a) / 2 = 0 by ring]
    simp only [zero_div, abs_zero, gt_iff_lt, not_lt]
    have : (0 : ℝ) < (t : ℝ) := by exact_mod_cast lt_trans one_pos ht
    exact this.le
  · have hvar : qVar [a, b] ≠ 0 := by
      rw [qVar_pair]
      exact div_ne_zero (pow_ne_zero 2 (sub_ne_zero.mpr hab)) (by norm_num)
    rw [if_neg hvar, gt_iff_lt, not_lt, two_point_abs_z a b hab]
    exact_mod_cast ht.le

/-! Claim theorems -/

/-- C1: the claim that the `k`-th consumed sample is always assigned sequence
index `k` (strictly increasing by 1, no repeats) fails on the code:
`update_graph` computes `idx = len(data_x) + 1` where `data_x` is a
`deque(maxlen=200)`, so once 200 samples have been consumed the length is
pinned at 200 and every further sample is assigned index 201.  Concretely,
the 201st and the 202nd consumed samples both receive index 201. -/
theorem C1_sequence_index_repeats_at_202 : nthIdx 201 = 201 ∧ nthIdx 202 = 201 := by
  constructor <;> norm_num [nthIdx, consumeIdx, consumeState_length]

/-- C2 (counterexample): `validate_data` accepts `nan` and `inf` — both are
instances of Python `float`, and the function checks only
`isinstance(value, (int, float))` — contradicting the claim that every NaN
or infinite floating-point value is rejected. -/
theorem C2_validate_accepts_nan_and_inf :
    validate_data (.float .nan) = .ok true ∧
      validate_data (.float .inf) = .ok true ∧
      validate_data (.float .neginf) = .ok true :=
  ⟨rfl, rfl, rfl⟩

/-- C2 (amended): `validate_data` accepts a value iff it is of numeric kind
(an `int` or `float` instance), regardless of finiteness — NaN and the
infinities are accepted; every non-numeric value raises
`DataStreamException`. -/
theorem C2_validate_iff_numeric_kind :
    ∀ v : PyValue, (validate_data v = .ok true ↔ acceptedKind v) ∧
      (¬ acceptedKind v → ∃ e, validate_data v = .error e) := by
  intro v
  cases v <;>
    simp [validate_data, acceptedKind, PyValue.isNumericInstance]

/-- C2 witness: the amended theorem applied at the non-numeric value
`None`. -/
theorem C2_witness :
    ¬ acceptedKind .none ∧ ∃ e, validate_data .none = .error e :=
  ⟨fun h => h, (C2_validate_iff_numeric_kind .none).2 fun h => h⟩

/-- C5: whenever the window holds fewer than 2 samples after the append,
`update_and_detect` returns `False`; in particular the first sample fed to a
freshly constructed detector is never flagged anomalous (for invalid inputs
the result is `False` as well, with the window untouched). -/
theorem C5_short_window_never_anomalous :
    (∀ (d : RollingZScoreAnomalyDetector) (v : PyValue),
        (d.update_and_detect v).2.window.length < 2 → ¬ (d.update_and_detect v).1) ∧
    (∀ (ws : ℕ) (t : ℚ) (v : PyValue),
        ¬ ((RollingZScoreAnomalyDetector.mk' ws t).update_and_detect v).1) :=
  ⟨update_short_window_false, update_fresh_false⟩

/-- C5 witness: a fresh detector receiving its first sample has a
one-element window and reports no anomaly. -/
theorem C5_witness :
    (((⟨30, 3, []⟩ : RollingZScoreAnomalyDetector).update_and_detect
        (.float (.finite 5))).2.window.length < 2) ∧
      ¬ ((⟨30, 3, []⟩ : RollingZScoreAnomalyDetector).update_and_detect
        (.float (.finite 5))).1 :=
  ⟨by decide, C5_short_window_never_anomalous.1 ⟨30, 3, []⟩ (.float (.finite 5)) (by decide)⟩

/-- C6: window invariant.  (i) Running a fresh detector over any input
sequence leaves the window equal to the most recent accepted values in
arrival order — the suffix of the accepted values obtained by FIFO-dropping
all but the last `window_size`; (ii) in particular after `n` valid numeric
inputs the window length is `min n window_size`; (iii) each step preserves
`length ≤ capacity`. -/
theorem C6_window_invariant :
    (∀ (ws : ℕ) (t : ℚ) (vs : List PyValue),
        ((RollingZScoreAnomalyDetector.mk' ws t).run vs).window
          = (vs.filterMap PyValue.toFloatVal).drop
              ((vs.filterMap PyValue.toFloatVal).length - ws)) ∧
    (∀ (ws : ℕ) (t : ℚ) (fs : List FloatVal),
        ((RollingZScoreAnomalyDetector.mk' ws t).run
            (fs.map PyValue.float)).window.length = min fs.length ws) ∧
    (∀ (d : RollingZScoreAnomalyDetector) (v : PyValue),
        d.window.length ≤ d.window_size →
        (d.update_and_detect v).2.window.length ≤ d.window_size) := by
  refine ⟨?_, ?_, ?_⟩
  · intro ws t vs
    rw [RollingZScoreAnomalyDetector.run_window_foldl]
    exact foldl_dequeAppend_eq_drop ws _
  · intro ws t fs
    rw [RollingZScoreAnomalyDetector.run_float_window, List.length_drop]
    omega
  · intro d v h
    cases hv : v.toFloatVal with
    | none =>
        rw [RollingZScoreAnomalyDetector.update_window_invalid d v hv]
        exact h
    | some f =>
        rw [RollingZScoreAnomalyDetector.update_window_valid d v f hv,
          dequeAppend_length]
        omega

/-- C6 witness: a full two-slot window stays within capacity after a
further insertion. -/
theorem C6_witness :
    ((⟨2, 3, [.finite 1, .finite 2]⟩ :
        RollingZScoreAnomalyDetector).window.length
      ≤ (⟨2, 3, [.finite 1, .finite 2]⟩ :
        RollingZScoreAnomalyDetector).window_size) ∧
    (((⟨2, 3, [.finite 1, .finite 2]⟩ :
          RollingZScoreAnomalyDetector).update_and_detect
        (.float (.finite 9))).2.window.length
      ≤ (⟨2, 3, [.finite 1, .finite 2]⟩ :
        RollingZScoreAnomalyDetector).window_size) :=
  ⟨by decide, C6_window_invariant.2.2 ⟨2, 3, [.finite 1, .finite 2]⟩
    (.float (.finite 9)) (by decide)⟩

/-- C4: (i) when the population variance of the post-append window is
exactly 0, the z-score test divides by the substituted epsilon `1e-6`
instead of the zero standard deviation, so it is well-defined; (ii) hence
feeding the same constant `window_size` times and once more to a fresh
detector returns `False` (for any nonnegative threshold). -/
theorem C4_zero_std_epsilon_substitution :
    (∀ (t : ℚ) (w : List FloatVal) (q : ℚ) (qs : List ℚ),
        finiteVals w = some qs → qVar qs = 0 →
        (zDetect t w (.finite q)
          ↔ |((q : ℝ) - (qMean qs : ℝ)) / (1e-6 : ℝ)| > (t : ℝ))) ∧
    (∀ (ws : ℕ) (t q : ℚ), 0 ≤ t →
        ¬ (((RollingZScoreAnomalyDetector.mk' ws t).run
              (List.replicate ws (.float (.finite q)))).update_and_detect
            (.float (.finite q))).1) := by
  constructor
  · intro t w q qs hw hvar
    rw [zDetect_eq t w qs q hw, hvar, if_pos rfl]
  · intro ws t q ht
    have hd : (RollingZScoreAnomalyDetector.mk' ws t).run
        (List.replicate ws (PyValue.float (.finite q)))
        = ⟨ws, t, List.replicate ws (.finite q)⟩ := by
      refine detector_ext _ _ _ _ ?_ ?_ ?_
      · rw [RollingZScoreAnomalyDetector.run_window_size]; rfl
      · rw [RollingZScoreAnomalyDetector.run_threshold]; rfl
      · rw [show List.replicate ws (PyValue.float (.finite q))
              = (List.replicate ws (FloatVal.finite q)).map PyValue.float by
            simp [List.map_replicate],
          RollingZScoreAnomalyDetector.run_float_window]
        simp
    rw [hd]
    rcases Nat.lt_or_ge ws 2 with hws | hws
    · refine update_short_window_false _ _ ?_
      rw [RollingZScoreAnomalyDetector.update_window_valid _
          (.float (.finite q)) (.finite q) rfl,
        dequeAppend_replicate_self]
      simpa using hws
    · have hlen : ¬ (dequeAppend ws (List.replicate ws (FloatVal.finite q))
          (FloatVal.finite q)).length < 2 := by
        rw [dequeAppend_replicate_self, List.length_replicate]
        omega
      rw [update_result_mk ws t _ (.float (.finite q)) (FloatVal.finite q) rfl hlen,
        dequeAppend_replicate_self,
        zDetect_eq t _ (List.replicate ws q) q (finiteVals_replicate ws q),
        qVar_replicate, if_pos rfl, qMean_replicate ws q (by omega)]
      simp only [sub_self, zero_div, abs_zero, gt_iff_lt, not_lt]
      exact_mod_cast ht

/-- C4 witness: a detector with `window_size=3` fed `7.0` four times reports
no anomaly on the fourth call. -/
theorem C4_witness :
    (0 : ℚ) ≤ 3 ∧
      ¬ (((RollingZScoreAnomalyDetector.mk' 3 3).run
            (List.replicate 3 (.float (.finite 7)))).update_and_detect
          (.float (.finite 7))).1 :=
  ⟨by norm_num, C4_zero_std_epsilon_substitution.2 3 3 7 (by norm_num)⟩

/-- C7: the anomaly flag for a valid value is computed from the mean and
population standard deviation of the window contents *after* the value has
been appended (the candidate is part of its own baseline), and the flag is
exactly `|(value - mean) / std_dev| > threshold` (with the epsilon
substitution when the standard deviation is zero). -/
theorem C7_self_inclusive_statistics :
    ∀ (d : RollingZScoreAnomalyDetector) (q : ℚ) (qs : List ℚ),
      finiteVals (dequeAppend d.window_size d.window (.finite q)) = some qs →
      2 ≤ (dequeAppend d.window_size d.window (.finite q)).length →
      ((d.update_and_detect (.float (.finite q))).1 ↔
        |((q : ℝ) - (qMean qs : ℝ)) /
            (if qVar qs = 0 then (1e-6 : ℝ) else Real.sqrt (qVar qs))|
          > (d.threshold : ℝ)) := by
  intro d q qs hfv h2
  rw [RollingZScoreAnomalyDetector.update_result_of_ge_two d
    (.float (.finite q)) (.finite q) rfl (by omega)]
  exact iff_of_eq (zDetect_eq d.threshold _ qs q hfv)

/-- C7 witness: the theorem applied to a detector holding `[1]` receiving
`2`, whose post-append window is `[1, 2]`. -/
theorem C7_witness :
    finiteVals (dequeAppend
        (⟨30, 3, [.finite 1]⟩ : RollingZScoreAnomalyDetector).window_size
        (⟨30, 3, [.finite 1]⟩ : RollingZScoreAnomalyDetector).window
        (.finite 2)) = some [1, 2] ∧
    2 ≤ (dequeAppend
        (⟨30, 3, [.finite 1]⟩ : RollingZScoreAnomalyDetector).window_size
        (⟨30, 3, [.finite 1]⟩ : RollingZScoreAnomalyDetector).window
        (.finite 2)).length ∧
    (((⟨30, 3, [.finite 1]⟩ : RollingZScoreAnomalyDetector).update_and_detect
        (.float (.finite 2))).1 ↔
      |(((2 : ℚ) : ℝ) - (qMean [1, 2] : ℝ)) /
          (if qVar [1, 2] = 0 then (1e-6 : ℝ) else Real.sqrt (qVar [1, 2]))|
        > (((⟨30, 3, [.finite 1]⟩ :
            RollingZScoreAnomalyDetector).threshold : ℝ))) :=
  ⟨rfl, by decide,
    C7_self_inclusive_statistics ⟨30, 3, [.finite 1]⟩ 2 [1, 2] rfl (by decide)⟩

/-- C10: with exactly two values `a, b` in the post-append window, the
z-score of the newly appended `b` has absolute value exactly 1 when
`a ≠ b` (the mean is the midpoint, the population standard deviation is
`|a-b|/2`) and the epsilon-substituted z-score is 0 when `a = b`; hence for
any threshold above 1 a fresh detector can flag neither its first nor its
second sample. -/
theorem C10_second_sample_never_anomalous :
    ∀ (a b t : ℚ) (ws : ℕ),
      (a ≠ b →
        |((b : ℝ) - (qMean [a, b] : ℝ)) / Real.sqrt (qVar [a, b])| = 1) ∧
      (a = b → ((b : ℝ) - (qMean [a, b] : ℝ)) / (1e-6 : ℝ) = 0) ∧
      (1 < t →
        ∀ p ∈ RollingZScoreAnomalyDetector.runFlags
          (RollingZScoreAnomalyDetector.mk' ws t)
          [.float (.finite a), .float (.finite b)], ¬ p) := by
  intro a b t ws
  refine ⟨two_point_abs_z a b, ?_, ?_⟩
  · intro hab
    subst hab
    rw [qMean_pair]
    push_cast
    rw [show (a : ℝ) - ((a : ℝ) + a) / 2 = 0 by ring, zero_div]
  · intro ht p hp
    rw [RollingZScoreAnomalyDetector.runFlags,
      RollingZScoreAnomalyDetector.runFlags,
      RollingZScoreAnomalyDetector.runFlags] at hp
    rcases List.mem_cons.mp hp with h1 | hp
    · subst h1
      exact update_fresh_false ws t _
    rcases List.mem_cons.mp hp with h2 | hp
    swap
    · simp at hp
    subst h2
    rcases Nat.lt_or_ge ws 2 with hws | hws
    · refine update_short_window_false _ _ ?_
      rw [RollingZScoreAnomalyDetector.update_window_valid _
          (.float (.finite b)) (.finite b) rfl,
        dequeAppend_length, RollingZScoreAnomalyDetector.update_window_size,
        RollingZScoreAnomalyDetector.update_window_valid _
          (.float (.finite a)) (.finite a) rfl,
        dequeAppend_length]
      simp only [RollingZScoreAnomalyDetector.mk', List.length_nil]
      omega
    · have hd1 : ((RollingZScoreAnomalyDetector.mk' ws t).update_and_detect
          (.float (.finite a))).2 = ⟨ws, t, [.finite a]⟩ := by
        refine detector_ext _ _ _ _ ?_ ?_ ?_
        · rw [RollingZScoreAnomalyDetector.update_window_size]; rfl
        · rw [RollingZScoreAnomalyDetector.update_threshold]; rfl
        · rw [RollingZScoreAnomalyDetector.update_window_valid _
            (.float (.finite a)) (.finite a) rfl]
          rw [show (RollingZScoreAnomalyDetector.mk' ws t).window_size = ws from rfl,
            show (RollingZScoreAnomalyDetector.mk' ws t).window = [] from rfl]
          rw [dequeAppend, if_neg (by simp; omega)]
          simp
      rw [hd1]
      have happ : dequeAppend ws [FloatVal.finite a] (.finite b)
          = [FloatVal.finite a, .finite b] := by
        rw [dequeAppend, if_neg (by simp; omega)]
        rfl
      rw [update_result_mk ws t _ (.float (.finite b)) (.finite b) rfl
        (by rw [happ]; simp), happ]
      exact zDetect_pair_not a b t ht

/-- C10 witness: with window `[1, 2]` the absolute z-score of the new value
`2` is exactly 1. -/
theorem C10_witness :
    (1 : ℚ) ≠ 2 ∧
      |(((2 : ℚ) : ℝ) - (qMean [1, 2] : ℝ)) / Real.sqrt (qVar [1, 2])| = 1 :=
  ⟨by norm_num, (C10_second_sample_never_anomalous 1 2 2 30).1 (by norm_num)⟩

/-- C3: the outlier test case: a fresh detector with `window_size=30`,
`threshold=3` fed 29 copies of `10.0` and then `1000.0` flags the final
value as anomalous (mean 43, population variance 31581, and
`957 / sqrt 31581 > 3`). -/
theorem C3_outlier_is_flagged :
    (((RollingZScoreAnomalyDetector.mk' 30 3).run
        (List.replicate 29 (.float (.finite 10)))).update_and_detect
      (.float (.finite 1000))).1 := by
  have hd : (RollingZScoreAnomalyDetector.mk' 30 3).run
      (List.replicate 29 (PyValue.float (.finite 10)))
      = ⟨30, 3, List.replicate 29 (.finite 10)⟩ := by
    refine detector_ext _ _ _ _ ?_ ?_ ?_
    · rw [RollingZScoreAnomalyDetector.run_window_size]; rfl
    · rw [RollingZScoreAnomalyDetector.run_threshold]; rfl
    · rw [show List.replicate 29 (PyValue.float (.finite 10))
            = (List.replicate 29 (FloatVal.finite 10)).map PyValue.float by
          simp [List.map_replicate],
        RollingZScoreAnomalyDetector.run_float_window]
      simp
  rw [hd]
  have happ : dequeAppend 30 (List.replicate 29 (FloatVal.finite 10))
      (FloatVal.finite 1000)
      = List.replicate 29 (FloatVal.finite 10) ++ [FloatVal.finite 1000] := by
    rw [dequeAppend, if_neg (by simp)]
  have hlen : ¬ (dequeAppend 30 (List.replicate 29 (FloatVal.finite 10))
      (FloatVal.finite 1000)).length < 2 := by
    rw [happ]
    simp
  rw [update_result_mk 30 3 _ (.float (.finite 1000)) (FloatVal.finite 1000)
    rfl hlen, happ]
  have hfv : finiteVals
      (List.replicate 29 (FloatVal.finite 10) ++ [FloatVal.finite 1000])
      = some (List.replicate 29 (10 : ℚ) ++ [1000]) := by rfl
  rw [zDetect_eq 3 _ (List.replicate 29 (10 : ℚ) ++ [1000]) 1000 hfv]
  have hm : qMean (List.replicate 29 (10 : ℚ) ++ [1000]) = 43 := by
    norm_num [qMean, List.sum_append, List.sum_replicate, smul_eq_mul]
  have hv : qVar (List.replicate 29 (10 : ℚ) ++ [1000]) = 31581 := by
    norm_num [qVar, hm, List.map_append, List.map_replicate, List.sum_append,
      List.sum_replicate, smul_eq_mul]
  rw [hm, hv, if_neg (by norm_num)]
  push_cast
  have hs0 : (0 : ℝ) < Real.sqrt 31581 := Real.sqrt_pos.mpr (by norm_num)
  have hs : Real.sqrt (31581 : ℝ) < 319 := by
    rw [Real.sqrt_lt' (by norm_num : (0 : ℝ) < 319)]
    norm_num
  rw [show (1000 : ℝ) - 43 = 957 by norm_num,
    abs_of_pos (div_pos (by norm_num) hs0), gt_iff_lt, lt_div_iff₀ hs0]
  linarith [hs]

/-- C8: an input that fails validation produces exactly `(False, d)` — the
result is `False`, the window (indeed the whole detector state) is
unchanged, and the embedded function is total, so the raised
`DataStreamException` never escapes `update_and_detect`. -/
theorem C8_invalid_input_is_atomic :
    ∀ (d : RollingZScoreAnomalyDetector) (v : PyValue) (e : DataStreamException),
      validate_data v = .error e → d.update_and_detect v = (False, d) := by
  intro d v e h
  exact RollingZScoreAnomalyDetector.update_window_invalid d v
    ((toFloatVal_eq_none_iff v).mpr (validate_error_iff v e h))

/-- C8 witness: feeding the non-numeric value `"offline"` to a detector with
a non-empty window returns `False` and leaves the state intact. -/
theorem C8_witness :
    validate_data (.str "offline")
        = .error ⟨"Invalid data: value is not a numeric type."⟩ ∧
      (⟨30, 3, [.finite 1]⟩ : RollingZScoreAnomalyDetector).update_and_detect
          (.str "offline")
        = (False, ⟨30, 3, [.finite 1]⟩) :=
  ⟨rfl, C8_invalid_input_is_atomic ⟨30, 3, [.finite 1]⟩ (.str "offline") _ rfl⟩

/-- C9: `update_and_detect` is a pure function of the detector state
(window, window_size, threshold) and the input: two detectors agreeing on
all three fields produce identical flag sequences and identical final
states on every input sequence.  The embedding is deterministic by
construction — the source consults no randomness or global state in
`update_and_detect`. -/
theorem C9_detection_is_deterministic :
    ∀ (da db : RollingZScoreAnomalyDetector) (vs : List PyValue),
      da.window_size = db.window_size → da.threshold = db.threshold →
      da.window = db.window →
      RollingZScoreAnomalyDetector.runFlags da vs
          = RollingZScoreAnomalyDetector.runFlags db vs ∧
        RollingZScoreAnomalyDetector.run da vs
          = RollingZScoreAnomalyDetector.run db vs := by
  intro da db vs h1 h2 h3
  have hdd : da = db := by
    cases da; cases db; simp_all
  subst hdd
  exact ⟨rfl, rfl⟩

/-- C9 witness: two identically configured fresh detectors replaying the
same three-sample sequence agree. -/
theorem C9_witness :
    RollingZScoreAnomalyDetector.runFlags ⟨30, 3, []⟩
        [.float (.finite 10), .float (.finite 11), .float (.finite 12)]
      = RollingZScoreAnomalyDetector.runFlags ⟨30, 3, []⟩
        [.float (.finite 10), .float (.finite 11), .float (.finite 12)] ∧
    RollingZScoreAnomalyDetector.run ⟨30, 3, []⟩
        [.float (.finite 10), .float (.finite 11), .float (.finite 12)]
      = RollingZScoreAnomalyDetector.run ⟨30, 3, []⟩
        [.float (.finite 10), .float (.finite 11), .float (.finite 12)] :=
  C9_detection_is_deterministic ⟨30, 3, []⟩ ⟨30, 3, []⟩ _ rfl rfl rfl

end AnomalyDetection
